import Mathlib

/-!
Shallow embedding of `paypal/settings.py` (the `PayPalConfig` class) and
verification of properties of its constructor.

The constructor takes keyword arguments (modelled as a partial map from
directive names to Python-like values), validates the environment and
authentication-mode directives, resolves the API endpoint and redirect URL
from static tables, validates the CA-certificate directive against the
filesystem (modelled as an abstract existence predicate), enforces the
per-mode required credential fields, and applies the HTTP timeout override.
A raised exception is modelled as `Except.error`; a successfully constructed
object is `Except.ok` of a record of the resolved instance attributes.
-/

namespace PayPalSettings

/-- Value models a Python object supplied as a config directive value:
a string, a boolean, a number (modelled exactly as a rational, which
represents the floats appearing in this module exactly), or `None`. -/
inductive Value where
  | vStr : String → Value
  | vBool : Bool → Value
  | vNum : Rat → Value
  | vNone : Value
deriving DecidableEq

/-- truthy models Python truthiness of a directive value: empty strings,
`False`, zero and `None` are falsy, everything else is truthy. -/
def Value.truthy : Value → Bool
  | .vStr s => s != ""
  | .vBool b => b
  | .vNum q => q != 0
  | .vNone => false

/-- Kwargs models the `**kwargs` dictionary passed to `PayPalConfig.__init__`:
a partial map from directive names to values (`none` = key absent). -/
abbrev Kwargs := String → Option Value

/-- kwargsOf builds a Kwargs from an association list, for concrete inputs. -/
def kwargsOf (l : List (String × Value)) : Kwargs :=
  fun k => (l.find? (fun p => p.1 == k)).map (fun p => p.2)

/-- setKw overrides a Kwargs at one key. -/
def setKw (kwargs : Kwargs) (key : String) (v : Value) : Kwargs :=
  fun k => if k == key then some v else kwargs k

/-- getTruthy models the `if kwargs.get(KEY):` guard: the value of `KEY` when
it is present and truthy, and `none` otherwise. -/
def getTruthy (kwargs : Kwargs) (key : String) : Option Value :=
  match kwargs key with
  | some v => if v.truthy then some v else none
  | none => none

/-- PError models the exceptions that `PayPalConfig.__init__` can raise:
`PayPalConfigError` (with its message), a `KeyError` escaping from a raw
dict lookup, and an `AttributeError` from calling `.upper()` on a
non-string value. -/
inductive PError where
  | configError : String → PError
  | keyError : String → PError
  | attributeError : PError
deriving DecidableEq

/-- pyUpper models Python `str.upper()` on the ASCII strings this module
handles; `Char.toUpper` is exactly the ASCII `a`-`z` uppercasing. -/
def pyUpper (s : String) : String := ⟨s.data.map Char.toUpper⟩

/-- valid_API_ENVIRONMENT is `PayPalConfig._valid_['API_ENVIRONMENT']`. -/
def valid_API_ENVIRONMENT : List String := ["SANDBOX", "PRODUCTION"]

/-- valid_API_AUTHENTICATION_MODE is
`PayPalConfig._valid_['API_AUTHENTICATION_MODE']`. -/
def valid_API_AUTHENTICATION_MODE : List String :=
  ["3TOKEN", "CERTIFICATE", "ACCESS_TOKEN", "3TOKEN_SUBJECT"]

/-- Static two-level endpoint table `PayPalConfig._API_ENDPOINTS`
(outer key: authentication mode; inner key: environment); a missing key is
`none` (a Python `KeyError` when looked up). -/
def _API_ENDPOINTS (mode : String) : Option (String → Option String) :=
  match mode with
  | "3TOKEN" => some fun env =>
      match env with
      | "SANDBOX" => some "https://api-3t.sandbox.paypal.com/nvp"
      | "PRODUCTION" => some "https://api-3t.paypal.com/nvp"
      | _ => none
  | "ACCESS_TOKEN" => some fun env =>
      match env with
      | "SANDBOX" => some "https://api-3t.sandbox.paypal.com/nvp"
      | "PRODUCTION" => some "https://api-3t.paypal.com/nvp"
      | _ => none
  | "3TOKEN_SUBJECT" => some fun env =>
      match env with
      | "SANDBOX" => some "https://api-3t.sandbox.paypal.com/nvp"
      | "PRODUCTION" => some "https://api-3t.paypal.com/nvp"
      | _ => none
  | _ => none

/-- Static redirect-URL table `PayPalConfig._PAYPAL_URL_BASE`, keyed by
environment. -/
def _PAYPAL_URL_BASE (env : String) : Option String :=
  match env with
  | "SANDBOX" => some "https://www.sandbox.paypal.com/webscr"
  | "PRODUCTION" => some "https://www.paypal.com/webscr"
  | _ => none

/-- resolveEnv models settings.py lines 93-99: if `API_ENVIRONMENT` is
present and truthy it is uppercased and must lie in the valid list, else
`PayPalConfigError('Invalid API_ENVIRONMENT')`; otherwise the class default
`'SANDBOX'` stands. Calling `.upper()` on a truthy non-string raises
`AttributeError`. -/
def resolveEnv (kwargs : Kwargs) : Except PError String :=
  match getTruthy kwargs "API_ENVIRONMENT" with
  | none => .ok "SANDBOX"
  | some (.vStr s) =>
      if pyUpper s ∈ valid_API_ENVIRONMENT then .ok (pyUpper s)
      else .error (.configError "Invalid API_ENVIRONMENT")
  | some _ => .error .attributeError

/-- resolveAuthMode models settings.py lines 101-110: if
`API_AUTHENTICATION_MODE` is present and truthy it is uppercased and must
lie in the valid list, else `PayPalConfigError` naming the valid choices;
otherwise the class default `'3TOKEN'` stands. -/
def resolveAuthMode (kwargs : Kwargs) : Except PError String :=
  match getTruthy kwargs "API_AUTHENTICATION_MODE" with
  | none => .ok "3TOKEN"
  | some (.vStr s) =>
      if pyUpper s ∈ valid_API_AUTHENTICATION_MODE then .ok (pyUpper s)
      else .error (.configError
        ("Not a supported auth mode. Use one of: "
          ++ String.intercalate ", " valid_API_AUTHENTICATION_MODE))
  | some _ => .error .attributeError

/-- lookupEndpoint models the unguarded lookup on settings.py line 113:
`self._API_ENDPOINTS[self.API_AUTHENTICATION_MODE][self.API_ENVIRONMENT]`;
a missing key raises a `KeyError` naming that key. -/
def lookupEndpoint (mode env : String) : Except PError String :=
  match _API_ENDPOINTS mode with
  | none => .error (.keyError mode)
  | some inner =>
    match inner env with
    | none => .error (.keyError env)
    | some u => .ok u

/-- lookupUrlBase models the unguarded lookup on settings.py line 114:
`self._PAYPAL_URL_BASE[self.API_ENVIRONMENT]`. -/
def lookupUrlBase (env : String) : Except PError String :=
  match _PAYPAL_URL_BASE env with
  | none => .error (.keyError env)
  | some u => .ok u

/-- resolveCACerts models settings.py lines 118-123: if `API_CA_CERTS` is
present and truthy it becomes the policy, and when it is a string it must
name an existing path (the filesystem is the abstract predicate `fs`), else
`PayPalConfigError('Invalid API_CA_CERTS')`; otherwise the class default
`True` stands. -/
def resolveCACerts (fs : String → Bool) (kwargs : Kwargs) : Except PError Value :=
  match getTruthy kwargs "API_CA_CERTS" with
  | none => .ok (.vBool true)
  | some v =>
    match v with
    | .vStr s => if fs s then .ok v else .error (.configError "Invalid API_CA_CERTS")
    | _ => .ok v

/-- requiredFields gives, per resolved authentication mode, the tuple of
required credential directives from settings.py lines 126-142 (modes without
such a block require nothing). -/
def requiredFields (mode : String) : List String :=
  match mode with
  | "3TOKEN" => ["API_USERNAME", "API_PASSWORD", "API_SIGNATURE"]
  | "ACCESS_TOKEN" =>
      ["API_USERNAME", "API_PASSWORD", "ACCESS_TOKEN", "TOKEN_SECRET", "APPLICATION_ID"]
  | "3TOKEN_SUBJECT" => ["API_USERNAME", "API_PASSWORD", "API_SIGNATURE", "SUBJECT"]
  | _ => []

/-- firstMissing is the first field of the list whose key is absent from
kwargs (the loops on lines 126-142 check `arg not in kwargs` in order and
raise at the first hit). -/
def firstMissing (fields : List String) (kwargs : Kwargs) : Option String :=
  fields.find? (fun f => (kwargs f).isNone)

/-- checkRequired models the three credential loops of settings.py lines
126-142: the first required field of the resolved mode that is absent from
kwargs raises `PayPalConfigError('Missing in PayPalConfig: <name> ')`. -/
def checkRequired (mode : String) (kwargs : Kwargs) : Except PError Unit :=
  match firstMissing (requiredFields mode) kwargs with
  | some f => .error (.configError ("Missing in PayPalConfig: " ++ f ++ " "))
  | none => .ok ()

/-- credField gives the value of one credential attribute after the loops of
lines 126-142: `setattr(self, arg, kwargs[arg])` runs exactly for the
required fields of the resolved mode, every other credential attribute keeps
its class default (`None`, modelled as `none`). -/
def credField (mode : String) (kwargs : Kwargs) (name : String) : Option Value :=
  if name ∈ requiredFields mode then kwargs name else none

/-- PayPalConfig is the successfully constructed object: the instance
attributes of a `PayPalConfig` after `__init__` returns. -/
structure PayPalConfig where
  API_ENVIRONMENT : String
  API_AUTHENTICATION_MODE : String
  API_ENDPOINT : String
  PAYPAL_URL_BASE : String
  API_CA_CERTS : Value
  API_USERNAME : Option Value
  API_PASSWORD : Option Value
  API_SIGNATURE : Option Value
  ACCESS_TOKEN : Option Value
  TOKEN_SECRET : Option Value
  APPLICATION_ID : Option Value
  SUBJECT : Option Value
  HTTP_TIMEOUT : Value
  API_VERSION : String
  ACK_SUCCESS : String
  ACK_SUCCESS_WITH_WARNING : String
deriving DecidableEq

/-- getCred reads one credential attribute of a constructed config by its
directive name. -/
def PayPalConfig.getCred (cfg : PayPalConfig) (name : String) : Option Value :=
  match name with
  | "API_USERNAME" => cfg.API_USERNAME
  | "API_PASSWORD" => cfg.API_PASSWORD
  | "API_SIGNATURE" => cfg.API_SIGNATURE
  | "ACCESS_TOKEN" => cfg.ACCESS_TOKEN
  | "TOKEN_SECRET" => cfg.TOKEN_SECRET
  | "APPLICATION_ID" => cfg.APPLICATION_ID
  | "SUBJECT" => cfg.SUBJECT
  | _ => none

/-- buildConfig assembles the constructed object from the resolved stages:
the credential attributes come from `credField`, `HTTP_TIMEOUT` is the
kwargs value when the key is present (lines 144-146, a presence test, not a
truthiness test) and the class default `15.0` otherwise, and the constants
are the class attributes of settings.py lines 53, 77-78. -/
def buildConfig (env mode ep ub : String) (ca : Value) (kwargs : Kwargs) :
    PayPalConfig :=
  { API_ENVIRONMENT := env
    API_AUTHENTICATION_MODE := mode
    API_ENDPOINT := ep
    PAYPAL_URL_BASE := ub
    API_CA_CERTS := ca
    API_USERNAME := credField mode kwargs "API_USERNAME"
    API_PASSWORD := credField mode kwargs "API_PASSWORD"
    API_SIGNATURE := credField mode kwargs "API_SIGNATURE"
    ACCESS_TOKEN := credField mode kwargs "ACCESS_TOKEN"
    TOKEN_SECRET := credField mode kwargs "TOKEN_SECRET"
    APPLICATION_ID := credField mode kwargs "APPLICATION_ID"
    SUBJECT := credField mode kwargs "SUBJECT"
    HTTP_TIMEOUT := (kwargs "HTTP_TIMEOUT").getD (.vNum 15)
    API_VERSION := "98.0"
    ACK_SUCCESS := "SUCCESS"
    ACK_SUCCESS_WITH_WARNING := "SUCCESSWITHWARNING" }

/-- mkPayPalConfig models `PayPalConfig.__init__(**kwargs)` in source order:
environment validation, authentication-mode validation, the two unguarded
endpoint-table lookups, the CA-certificate check (against the abstract
filesystem `fs`), the required-credential loops, and the timeout override.
Any raised exception aborts construction with that error. -/
def mkPayPalConfig (fs : String → Bool) (kwargs : Kwargs) :
    Except PError PayPalConfig :=
  match resolveEnv kwargs with
  | .error e => .error e
  | .ok env =>
    match resolveAuthMode kwargs with
    | .error e => .error e
    | .ok mode =>
      match lookupEndpoint mode env with
      | .error e => .error e
      | .ok ep =>
        match lookupUrlBase env with
        | .error e => .error e
        | .ok ub =>
          match resolveCACerts fs kwargs with
          | .error e => .error e
          | .ok ca =>
            match checkRequired mode kwargs with
            | .error e => .error e
            | .ok _ => .ok (buildConfig env mode ep ub ca kwargs)

/-- emptyKwargs is the empty directive set. -/
def emptyKwargs : Kwargs := fun _ => none

/-- Concrete directive set exercising the (ACCESS_TOKEN, PRODUCTION) pair. -/
def c1kwargs : Kwargs := kwargsOf
  [("API_ENVIRONMENT", .vStr "PRODUCTION"),
   ("API_AUTHENTICATION_MODE", .vStr "ACCESS_TOKEN"),
   ("API_USERNAME", .vStr "u"), ("API_PASSWORD", .vStr "p"),
   ("ACCESS_TOKEN", .vStr "a"), ("TOKEN_SECRET", .vStr "t"),
   ("APPLICATION_ID", .vStr "i")]

/-- Concrete directive set supplying a required field as the empty string. -/
def c2kwargs : Kwargs := kwargsOf
  [("API_USERNAME", .vStr ""), ("API_PASSWORD", .vStr "p"),
   ("API_SIGNATURE", .vStr "s")]

/-- Concrete complete 3TOKEN directive set. -/
def c2okKwargs : Kwargs := kwargsOf
  [("API_USERNAME", .vStr "u"), ("API_PASSWORD", .vStr "p"),
   ("API_SIGNATURE", .vStr "s")]

/-- Expected construction result for `c2okKwargs`. -/
def c2okConfig : PayPalConfig :=
  buildConfig "SANDBOX" "3TOKEN" "https://api-3t.sandbox.paypal.com/nvp"
    "https://www.sandbox.paypal.com/webscr" (.vBool true) c2okKwargs

/-- Concrete directive set selecting the CERTIFICATE mode. -/
def c3kwargs : Kwargs := kwargsOf [("API_AUTHENTICATION_MODE", .vStr "CERTIFICATE")]

/-- Concrete directive set missing API_SIGNATURE in the default 3TOKEN mode. -/
def c4kwargs : Kwargs := kwargsOf
  [("API_USERNAME", .vStr "u"), ("API_PASSWORD", .vStr "p")]

/-- Concrete directive set with an empty-string environment and complete
3TOKEN credentials. -/
def c6kwargs : Kwargs := kwargsOf
  [("API_ENVIRONMENT", .vStr ""), ("API_USERNAME", .vStr "u"),
   ("API_PASSWORD", .vStr "p"), ("API_SIGNATURE", .vStr "s")]

/-- Concrete directive set naming a CA certificate path. -/
def c7kwargs : Kwargs := kwargsOf
  [("API_USERNAME", .vStr "u"), ("API_PASSWORD", .vStr "p"),
   ("API_SIGNATURE", .vStr "s"), ("API_CA_CERTS", .vStr "/no/such/path")]

/-- Concrete directive set overriding HTTP_TIMEOUT with a negative number. -/
def c8kwargs : Kwargs := kwargsOf
  [("API_USERNAME", .vStr "u"), ("API_PASSWORD", .vStr "p"),
   ("API_SIGNATURE", .vStr "s"), ("HTTP_TIMEOUT", .vNum (-1))]

/-- Expected construction result for `c8kwargs`. -/
def c8Config : PayPalConfig :=
  buildConfig "SANDBOX" "3TOKEN" "https://api-3t.sandbox.paypal.com/nvp"
    "https://www.sandbox.paypal.com/webscr" (.vBool true) c8kwargs

/-- Concrete complete ACCESS_TOKEN directive set. -/
def c9kwargs : Kwargs := kwargsOf
  [("API_AUTHENTICATION_MODE", .vStr "ACCESS_TOKEN"),
   ("API_USERNAME", .vStr "u"), ("API_PASSWORD", .vStr "p"),
   ("ACCESS_TOKEN", .vStr "a"), ("TOKEN_SECRET", .vStr "t"),
   ("APPLICATION_ID", .vStr "i")]

/-- Concrete directive set supplying falsy values for the three optional
validated directives, with complete 3TOKEN credentials. -/
def c10kwargs : Kwargs := kwargsOf
  [("API_ENVIRONMENT", .vStr ""), ("API_AUTHENTICATION_MODE", .vBool false),
   ("API_CA_CERTS", .vStr ""),
   ("API_USERNAME", .vStr "u"), ("API_PASSWORD", .vStr "p"),
   ("API_SIGNATURE", .vStr "s")]

theorem toNat_ofNat_valid {n : Nat} (h : n.isValidChar) : (Char.ofNat n).toNat = n := by
  rw [Char.ofNat, dif_pos h]
  rfl

theorem toUpper_idem (c : Char) : c.toUpper.toUpper = c.toUpper := by
  unfold Char.toUpper
  by_cases h : c.toNat ≥ 97 ∧ c.toNat ≤ 122
  · rw [if_pos h]
    have hv : Nat.isValidChar (c.toNat - 32) := Or.inl (by omega)
    rw [if_neg]
    rw [toNat_ofNat_valid hv]
    omega
  · rw [if_neg h, if_neg h]

theorem pyUpper_idem (s : String) : pyUpper (pyUpper s) = pyUpper s := by
  unfold pyUpper
  simp only [List.map_map]
  have h : Char.toUpper ∘ Char.toUpper = Char.toUpper := funext toUpper_idem
  rw [h]

theorem pyUpper_empty_iff (s : String) : pyUpper s = "" ↔ s = "" := by
  cases s with
  | mk data =>
    unfold pyUpper
    constructor
    · intro h
      have hd : data.map Char.toUpper = [] := congrArg String.data h
      rw [List.map_eq_nil_iff] at hd
      rw [hd]
    · intro h
      rw [show data = [] from congrArg String.data h]
      rfl

theorem resolveEnv_ok_mem {kwargs : Kwargs} {env : String}
    (h : resolveEnv kwargs = .ok env) : env = "SANDBOX" ∨ env = "PRODUCTION" := by
  unfold resolveEnv at h
  split at h
  · exact Or.inl (Except.ok.inj h).symm
  · next s =>
    split at h
    · next hmem =>
      obtain rfl := (Except.ok.inj h)
      simpa [valid_API_ENVIRONMENT] using hmem
    · exact absurd h (by simp)
  · exact absurd h (by simp)

theorem resolveAuthMode_ok_mem {kwargs : Kwargs} {mode : String}
    (h : resolveAuthMode kwargs = .ok mode) :
    mode = "3TOKEN" ∨ mode = "CERTIFICATE" ∨ mode = "ACCESS_TOKEN" ∨
      mode = "3TOKEN_SUBJECT" := by
  unfold resolveAuthMode at h
  split at h
  · exact Or.inl (Except.ok.inj h).symm
  · next s =>
    split at h
    · next hmem =>
      obtain rfl := (Except.ok.inj h)
      simpa [valid_API_AUTHENTICATION_MODE] using hmem
    · exact absurd h (by simp)
  · exact absurd h (by simp)

theorem mk_eq_ok {fs : String → Bool} {kwargs : Kwargs} {env mode ep ub : String}
    {ca : Value}
    (h1 : resolveEnv kwargs = .ok env) (h2 : resolveAuthMode kwargs = .ok mode)
    (h3 : lookupEndpoint mode env = .ok ep) (h4 : lookupUrlBase env = .ok ub)
    (h5 : resolveCACerts fs kwargs = .ok ca)
    (h6 : checkRequired mode kwargs = .ok ()) :
    mkPayPalConfig fs kwargs = .ok (buildConfig env mode ep ub ca kwargs) := by
  simp only [mkPayPalConfig, h1, h2, h3, h4, h5, h6]

theorem mk_ok_inv {fs : String → Bool} {kwargs : Kwargs} {cfg : PayPalConfig}
    (h : mkPayPalConfig fs kwargs = .ok cfg) :
    ∃ env mode ep ub ca,
      resolveEnv kwargs = .ok env ∧ resolveAuthMode kwargs = .ok mode ∧
      lookupEndpoint mode env = .ok ep ∧ lookupUrlBase env = .ok ub ∧
      resolveCACerts fs kwargs = .ok ca ∧ checkRequired mode kwargs = .ok () ∧
      cfg = buildConfig env mode ep ub ca kwargs := by
  unfold mkPayPalConfig at h
  split at h
  · exact absurd h (by simp)
  · next env heq1 =>
    split at h
    · exact absurd h (by simp)
    · next mode heq2 =>
      split at h
      · exact absurd h (by simp)
      · next ep heq3 =>
        split at h
        · exact absurd h (by simp)
        · next ub heq4 =>
          split at h
          · exact absurd h (by simp)
          · next ca heq5 =>
            split at h
            · exact absurd h (by simp)
            · next u heq6 =>
              exact ⟨env, mode, ep, ub, ca, heq1, heq2, heq3, heq4, heq5,
                heq6, (Except.ok.inj h).symm⟩

theorem firstMissing_none {fields : List String} {kwargs : Kwargs}
    (h : ∀ f ∈ fields, (kwargs f).isSome) : firstMissing fields kwargs = none := by
  unfold firstMissing
  rw [List.find?_eq_none]
  intro f hf
  have := h f hf
  cases hk : kwargs f <;> simp_all

theorem checkRequired_ok {mode : String} {kwargs : Kwargs}
    (h : ∀ f ∈ requiredFields mode, (kwargs f).isSome) :
    checkRequired mode kwargs = .ok () := by
  unfold checkRequired
  rw [firstMissing_none h]

theorem buildConfig_env (env mode ep ub : String) (ca : Value) (kwargs : Kwargs) :
    (buildConfig env mode ep ub ca kwargs).API_ENVIRONMENT = env := rfl

theorem buildConfig_mode (env mode ep ub : String) (ca : Value) (kwargs : Kwargs) :
    (buildConfig env mode ep ub ca kwargs).API_AUTHENTICATION_MODE = mode := rfl

theorem buildConfig_timeout (env mode ep ub : String) (ca : Value) (kwargs : Kwargs) :
    (buildConfig env mode ep ub ca kwargs).HTTP_TIMEOUT =
      (kwargs "HTTP_TIMEOUT").getD (.vNum 15) := rfl

theorem getCred_buildConfig_required {env mode ep ub : String} {ca : Value}
    {kwargs : Kwargs} {f : String} (hf : f ∈ requiredFields mode) :
    (buildConfig env mode ep ub ca kwargs).getCred f = kwargs f := by
  revert hf
  unfold requiredFields
  split
  · intro hf
    fin_cases hf <;> rfl
  · intro hf
    fin_cases hf <;> rfl
  · intro hf
    fin_cases hf <;> rfl
  · intro hf
    exact absurd hf (List.not_mem_nil f)

theorem setKw_eq (kwargs : Kwargs) (key : String) (v : Value) :
    setKw kwargs key v key = some v := by
  unfold setKw
  simp

theorem setKw_ne (kwargs : Kwargs) (key : String) (v : Value) {k : String}
    (h : k ≠ key) : setKw kwargs key v k = kwargs k := by
  unfold setKw
  simp [h]

theorem requiredFields_not_special {m g : String} (hg : g ∈ requiredFields m) :
    g ≠ "API_ENVIRONMENT" ∧ g ≠ "API_AUTHENTICATION_MODE" ∧
      g ≠ "API_CA_CERTS" ∧ g ≠ "HTTP_TIMEOUT" := by
  revert hg
  unfold requiredFields
  split <;> intro hg
  · fin_cases hg <;> refine ⟨by decide, by decide, by decide, by decide⟩
  · fin_cases hg <;> refine ⟨by decide, by decide, by decide, by decide⟩
  · fin_cases hg <;> refine ⟨by decide, by decide, by decide, by decide⟩
  · exact absurd hg (List.not_mem_nil g)

theorem getTruthy_congr {kwargs1 kwargs2 : Kwargs} {key : String}
    (h : kwargs1 key = kwargs2 key) :
    getTruthy kwargs1 key = getTruthy kwargs2 key := by
  unfold getTruthy
  rw [h]

theorem resolveEnv_congr {kwargs1 kwargs2 : Kwargs}
    (h : kwargs1 "API_ENVIRONMENT" = kwargs2 "API_ENVIRONMENT") :
    resolveEnv kwargs1 = resolveEnv kwargs2 := by
  unfold resolveEnv
  rw [getTruthy_congr h]

theorem resolveAuthMode_congr {kwargs1 kwargs2 : Kwargs}
    (h : kwargs1 "API_AUTHENTICATION_MODE" = kwargs2 "API_AUTHENTICATION_MODE") :
    resolveAuthMode kwargs1 = resolveAuthMode kwargs2 := by
  unfold resolveAuthMode
  rw [getTruthy_congr h]

theorem resolveCACerts_congr (fs : String → Bool) {kwargs1 kwargs2 : Kwargs}
    (h : kwargs1 "API_CA_CERTS" = kwargs2 "API_CA_CERTS") :
    resolveCACerts fs kwargs1 = resolveCACerts fs kwargs2 := by
  unfold resolveCACerts
  rw [getTruthy_congr h]

theorem firstMissing_congr {fields : List String} {kwargs1 kwargs2 : Kwargs}
    (h : ∀ g ∈ fields, kwargs1 g = kwargs2 g) :
    firstMissing fields kwargs1 = firstMissing fields kwargs2 := by
  unfold firstMissing
  induction fields with
  | nil => rfl
  | cons a l ih =>
    rw [List.find?_cons, List.find?_cons, h a (List.mem_cons_self a l)]
    split
    · rfl
    · exact ih (fun g hg => h g (List.mem_cons_of_mem a hg))

theorem checkRequired_congr {m : String} {kwargs1 kwargs2 : Kwargs}
    (h : ∀ g ∈ requiredFields m, kwargs1 g = kwargs2 g) :
    checkRequired m kwargs1 = checkRequired m kwargs2 := by
  unfold checkRequired
  rw [firstMissing_congr h]

theorem credField_congr (m : String) (kwargs1 kwargs2 : Kwargs) (name : String)
    (h : name ∈ requiredFields m → kwargs1 name = kwargs2 name) :
    credField m kwargs1 name = credField m kwargs2 name := by
  unfold credField
  split
  · next hm => rw [h hm]
  · rfl

theorem buildConfig_congr {env m ep ub : String} {ca : Value}
    {kwargs1 kwargs2 : Kwargs}
    (h : ∀ g ∈ requiredFields m, kwargs1 g = kwargs2 g)
    (ht : kwargs1 "HTTP_TIMEOUT" = kwargs2 "HTTP_TIMEOUT") :
    buildConfig env m ep ub ca kwargs1 = buildConfig env m ep ub ca kwargs2 := by
  have hc : ∀ name, credField m kwargs1 name = credField m kwargs2 name :=
    fun name => credField_congr m kwargs1 kwargs2 name (fun hm => h _ hm)
  unfold buildConfig
  rw [ht, hc, hc, hc, hc, hc, hc, hc]

theorem mk_congr (fs : String → Bool) {kwargs1 kwargs2 : Kwargs}
    (henv : resolveEnv kwargs1 = resolveEnv kwargs2)
    (hmode : resolveAuthMode kwargs1 = resolveAuthMode kwargs2)
    (hca : resolveCACerts fs kwargs1 = resolveCACerts fs kwargs2)
    (hchk : ∀ m, checkRequired m kwargs1 = checkRequired m kwargs2)
    (hbuild : ∀ env m ep ub ca,
      buildConfig env m ep ub ca kwargs1 = buildConfig env m ep ub ca kwargs2) :
    mkPayPalConfig fs kwargs1 = mkPayPalConfig fs kwargs2 := by
  unfold mkPayPalConfig
  simp only [henv, hmode, hca, hchk, hbuild]

theorem resolveEnv_setKw_str (kwargs : Kwargs) (s : String) (hs : s ≠ "") :
    resolveEnv (setKw kwargs "API_ENVIRONMENT" (.vStr s)) =
      if pyUpper s ∈ valid_API_ENVIRONMENT then .ok (pyUpper s)
      else .error (.configError "Invalid API_ENVIRONMENT") := by
  have ht : (Value.vStr s).truthy = true := by simp [Value.truthy, hs]
  have hg : getTruthy (setKw kwargs "API_ENVIRONMENT" (.vStr s))
      "API_ENVIRONMENT" = some (.vStr s) := by
    unfold getTruthy
    simp only [setKw_eq, ht, if_true]
  unfold resolveEnv
  simp only [hg]

theorem resolveAuthMode_setKw_str (kwargs : Kwargs) (s : String) (hs : s ≠ "") :
    resolveAuthMode (setKw kwargs "API_AUTHENTICATION_MODE" (.vStr s)) =
      if pyUpper s ∈ valid_API_AUTHENTICATION_MODE then .ok (pyUpper s)
      else .error (.configError ("Not a supported auth mode. Use one of: "
        ++ String.intercalate ", " valid_API_AUTHENTICATION_MODE)) := by
  have ht : (Value.vStr s).truthy = true := by simp [Value.truthy, hs]
  have hg : getTruthy (setKw kwargs "API_AUTHENTICATION_MODE" (.vStr s))
      "API_AUTHENTICATION_MODE" = some (.vStr s) := by
    unfold getTruthy
    simp only [setKw_eq, ht, if_true]
  unfold resolveAuthMode
  simp only [hg]

theorem mk_setKw_congr (fs : String → Bool) (kwargs : Kwargs) (key : String)
    (v1 v2 : Value)
    (hkey : key = "API_ENVIRONMENT" ∨ key = "API_AUTHENTICATION_MODE")
    (henv : resolveEnv (setKw kwargs key v1) = resolveEnv (setKw kwargs key v2))
    (hmode : resolveAuthMode (setKw kwargs key v1) =
      resolveAuthMode (setKw kwargs key v2)) :
    mkPayPalConfig fs (setKw kwargs key v1) =
      mkPayPalConfig fs (setKw kwargs key v2) := by
  apply mk_congr fs henv hmode
  · apply resolveCACerts_congr
    rcases hkey with rfl | rfl <;>
      rw [setKw_ne kwargs _ v1 (by decide), setKw_ne kwargs _ v2 (by decide)]
  · intro m
    apply checkRequired_congr
    intro g hg
    have hsp := requiredFields_not_special hg
    rcases hkey with rfl | rfl
    · rw [setKw_ne kwargs _ v1 hsp.1, setKw_ne kwargs _ v2 hsp.1]
    · rw [setKw_ne kwargs _ v1 hsp.2.1, setKw_ne kwargs _ v2 hsp.2.1]
  · intro env m ep ub ca
    apply buildConfig_congr
    · intro g hg
      have hsp := requiredFields_not_special hg
      rcases hkey with rfl | rfl
      · rw [setKw_ne kwargs _ v1 hsp.1, setKw_ne kwargs _ v2 hsp.1]
      · rw [setKw_ne kwargs _ v1 hsp.2.1, setKw_ne kwargs _ v2 hsp.2.1]
    · rcases hkey with rfl | rfl <;>
        rw [setKw_ne kwargs _ v1 (by decide), setKw_ne kwargs _ v2 (by decide)]

/-- C1: for every authentication mode in {3TOKEN, ACCESS_TOKEN, 3TOKEN_SUBJECT}
and environment in {SANDBOX, PRODUCTION}, with all required credential fields
supplied, construction succeeds deterministically and the resolved
API_ENDPOINT and PAYPAL_URL_BASE are exactly the fixed static-table URL
strings for that pair. -/
theorem C1_static_endpoint_resolution
    (fs : String → Bool) (kwargs : Kwargs) (mode env : String) (ca : Value)
    (hmode : mode = "3TOKEN" ∨ mode = "ACCESS_TOKEN" ∨ mode = "3TOKEN_SUBJECT")
    (henv : env = "SANDBOX" ∨ env = "PRODUCTION")
    (hkenv : kwargs "API_ENVIRONMENT" = some (.vStr env))
    (hkmode : kwargs "API_AUTHENTICATION_MODE" = some (.vStr mode))
    (hca : resolveCACerts fs kwargs = .ok ca)
    (hcred : ∀ f ∈ requiredFields mode, (kwargs f).isSome) :
    mkPayPalConfig fs kwargs =
      .ok (buildConfig env mode
        (if env = "SANDBOX" then "https://api-3t.sandbox.paypal.com/nvp"
         else "https://api-3t.paypal.com/nvp")
        (if env = "SANDBOX" then "https://www.sandbox.paypal.com/webscr"
         else "https://www.paypal.com/webscr")
        ca kwargs) := by
  have h6 := checkRequired_ok hcred
  rcases henv with rfl | rfl <;> rcases hmode with rfl | rfl | rfl <;>
    exact mk_eq_ok (by unfold resolveEnv getTruthy; rw [hkenv]; rfl)
      (by unfold resolveAuthMode getTruthy; rw [hkmode]; rfl) rfl rfl hca h6

/-- Witness for C1 at the concrete pair (ACCESS_TOKEN, PRODUCTION). -/
theorem C1_static_endpoint_resolution_witness :
    mkPayPalConfig (fun _ => false) c1kwargs =
      .ok (buildConfig "PRODUCTION" "ACCESS_TOKEN"
        (if "PRODUCTION" = "SANDBOX" then "https://api-3t.sandbox.paypal.com/nvp"
         else "https://api-3t.paypal.com/nvp")
        (if "PRODUCTION" = "SANDBOX" then "https://www.sandbox.paypal.com/webscr"
         else "https://www.paypal.com/webscr")
        (.vBool true) c1kwargs) :=
  C1_static_endpoint_resolution (fun _ => false) c1kwargs "ACCESS_TOKEN"
    "PRODUCTION" (.vBool true) (Or.inr (Or.inl rfl)) (Or.inr rfl) rfl rfl rfl
    (by decide)

/-- Counterexample to C2 as stated: construction succeeds in mode 3TOKEN even
though the required field API_USERNAME was supplied as the empty string, so a
constructed Configuration whose required credential fields include an empty
value does exist. -/
theorem C2_counterexample_empty_value_accepted :
    (mkPayPalConfig (fun _ => false) c2kwargs).map
      (fun c => c.API_USERNAME) = .ok (some (Value.vStr "")) := rfl

/-- C2 amended: on every successfully constructed Configuration, every
required credential field of the resolved mode is present (its key was
supplied in kwargs) and construction is all-or-nothing; values are copied
verbatim without an emptiness check, so a present field may be empty. -/
theorem C2_amended_required_fields_present
    (fs : String → Bool) (kwargs : Kwargs) (cfg : PayPalConfig) (f : String)
    (h : mkPayPalConfig fs kwargs = .ok cfg)
    (hf : f ∈ requiredFields cfg.API_AUTHENTICATION_MODE) :
    (cfg.getCred f).isSome = true := by
  obtain ⟨env, mode, ep, ub, ca, he, hm, hep, hub, hca, hchk, rfl⟩ := mk_ok_inv h
  rw [buildConfig_mode] at hf
  have hall : ∀ g ∈ requiredFields mode, (kwargs g).isSome = true := by
    unfold checkRequired at hchk
    cases hfm : firstMissing (requiredFields mode) kwargs with
    | some g => rw [hfm] at hchk; exact absurd hchk (by simp)
    | none =>
      unfold firstMissing at hfm
      rw [List.find?_eq_none] at hfm
      intro g hg
      have := hfm g hg
      cases hkg : kwargs g <;> simp_all
  rw [getCred_buildConfig_required hf]
  exact hall f hf

/-- Witness for the amended C2 at a concrete construction. -/
theorem C2_amended_required_fields_present_witness :
    (c2okConfig.getCred "API_USERNAME").isSome = true :=
  C2_amended_required_fields_present (fun _ => false) c2okKwargs c2okConfig
    "API_USERNAME" rfl (by decide)

/-- C3: with API_AUTHENTICATION_MODE resolving to CERTIFICATE the mode passes
validation (resolveAuthMode accepts it without a ConfigError), but the
endpoint table has no CERTIFICATE entry, so construction fails with a
KeyError, which is not a ConfigError; construction never succeeds. -/
theorem C3_certificate_mode_unguarded_lookup
    (fs : String → Bool) (kwargs : Kwargs) (env : String)
    (hkmode : kwargs "API_AUTHENTICATION_MODE" = some (.vStr "CERTIFICATE"))
    (henv : resolveEnv kwargs = .ok env) :
    resolveAuthMode kwargs = .ok "CERTIFICATE" ∧
    mkPayPalConfig fs kwargs = .error (.keyError "CERTIFICATE") ∧
    ∀ msg, PError.keyError "CERTIFICATE" ≠ PError.configError msg := by
  have h2 : resolveAuthMode kwargs = .ok "CERTIFICATE" := by
    unfold resolveAuthMode getTruthy; rw [hkmode]; rfl
  refine ⟨h2, ?_, fun msg h => by cases h⟩
  simp only [mkPayPalConfig, henv, h2]
  rfl

/-- Witness for C3 at a concrete directive set. -/
theorem C3_certificate_mode_unguarded_lookup_witness :
    resolveAuthMode c3kwargs = .ok "CERTIFICATE" ∧
    mkPayPalConfig (fun _ => false) c3kwargs = .error (.keyError "CERTIFICATE") ∧
    ∀ msg, PError.keyError "CERTIFICATE" ≠ PError.configError msg :=
  C3_certificate_mode_unguarded_lookup (fun _ => false) c3kwargs "SANDBOX" rfl rfl

/-- C4: for an implemented authentication mode, when a required field is
absent from kwargs, construction fails with the ConfigError naming exactly
the first missing field of the source's tuple order (hfirst states that f is
that first absent field, and the conclusion includes that f is an absent
required field). -/
theorem C4_missing_required_field
    (fs : String → Bool) (kwargs : Kwargs) (env mode f : String) (ca : Value)
    (henv : resolveEnv kwargs = .ok env)
    (hmode : resolveAuthMode kwargs = .ok mode)
    (himpl : mode = "3TOKEN" ∨ mode = "ACCESS_TOKEN" ∨ mode = "3TOKEN_SUBJECT")
    (hca : resolveCACerts fs kwargs = .ok ca)
    (hfirst : firstMissing (requiredFields mode) kwargs = some f) :
    kwargs f = none ∧ f ∈ requiredFields mode ∧
    mkPayPalConfig fs kwargs =
      .error (.configError ("Missing in PayPalConfig: " ++ f ++ " ")) := by
  have habs : kwargs f = none := by
    have := List.find?_some hfirst
    cases hk : kwargs f
    · rfl
    · rw [hk] at this; simp at this
  have hmem : f ∈ requiredFields mode := List.mem_of_find?_eq_some hfirst
  have hcheck : checkRequired mode kwargs =
      .error (.configError ("Missing in PayPalConfig: " ++ f ++ " ")) := by
    unfold checkRequired; rw [hfirst]
  refine ⟨habs, hmem, ?_⟩
  rcases resolveEnv_ok_mem henv with rfl | rfl <;>
    rcases himpl with rfl | rfl | rfl <;>
      simp only [mkPayPalConfig, henv, hmode, hca, hcheck] <;> rfl

/-- Witness for C4: mode 3TOKEN (by default) with API_SIGNATURE absent fails
naming API_SIGNATURE. -/
theorem C4_missing_required_field_witness :
    c4kwargs "API_SIGNATURE" = none ∧
    "API_SIGNATURE" ∈ requiredFields "3TOKEN" ∧
    mkPayPalConfig (fun _ => false) c4kwargs =
      .error (.configError "Missing in PayPalConfig: API_SIGNATURE ") :=
  C4_missing_required_field (fun _ => false) c4kwargs "SANDBOX" "3TOKEN"
    "API_SIGNATURE" (.vBool true) rfl rfl (Or.inl rfl) rfl rfl

/-- C5: omitting API_ENVIRONMENT resolves the environment to SANDBOX, and
omitting API_AUTHENTICATION_MODE resolves the mode to 3TOKEN, both at the
resolver and on any successfully constructed config. -/
theorem C5_defaults (fs : String → Bool) (kwargs : Kwargs) :
    (kwargs "API_ENVIRONMENT" = none →
      resolveEnv kwargs = .ok "SANDBOX" ∧
      ∀ cfg, mkPayPalConfig fs kwargs = .ok cfg →
        cfg.API_ENVIRONMENT = "SANDBOX") ∧
    (kwargs "API_AUTHENTICATION_MODE" = none →
      resolveAuthMode kwargs = .ok "3TOKEN" ∧
      ∀ cfg, mkPayPalConfig fs kwargs = .ok cfg →
        cfg.API_AUTHENTICATION_MODE = "3TOKEN") := by
  constructor
  · intro h
    have h1 : resolveEnv kwargs = .ok "SANDBOX" := by
      unfold resolveEnv getTruthy; rw [h]
    refine ⟨h1, fun cfg hcfg => ?_⟩
    obtain ⟨env, mode, ep, ub, ca, he, _, _, _, _, _, rfl⟩ := mk_ok_inv hcfg
    rw [he] at h1
    rw [buildConfig_env]
    exact Except.ok.inj h1
  · intro h
    have h1 : resolveAuthMode kwargs = .ok "3TOKEN" := by
      unfold resolveAuthMode getTruthy; rw [h]
    refine ⟨h1, fun cfg hcfg => ?_⟩
    obtain ⟨env, mode, ep, ub, ca, _, hm, _, _, _, _, rfl⟩ := mk_ok_inv hcfg
    rw [hm] at h1
    rw [buildConfig_mode]
    exact Except.ok.inj h1

/-- Witness for C5 at the empty directive set. -/
theorem C5_defaults_witness :
    resolveEnv emptyKwargs = .ok "SANDBOX" ∧
    resolveAuthMode emptyKwargs = .ok "3TOKEN" :=
  ⟨((C5_defaults (fun _ => false) emptyKwargs).1 rfl).1,
   ((C5_defaults (fun _ => false) emptyKwargs).2 rfl).1⟩

/-- Counterexample to C6 as stated: the empty string uppercases to a value
outside the enumerated environment set, yet construction does not fail with
a ConfigError; it succeeds and resolves the default SANDBOX, because a falsy
directive is skipped before validation. -/
theorem C6_counterexample_empty_string_env :
    pyUpper "" ∉ valid_API_ENVIRONMENT ∧
    (mkPayPalConfig (fun _ => false) c6kwargs).map
      (fun c => c.API_ENVIRONMENT) = .ok "SANDBOX" :=
  ⟨by decide, rfl⟩

/-- C6 amended: supplying API_ENVIRONMENT or API_AUTHENTICATION_MODE in any
letter case yields exactly the construction result of supplying its
uppercased form (values are uppercased before validation and lookup), and a
non-empty value whose uppercasing is outside the enumerated set fails with
the corresponding ConfigError; an empty string is falsy and instead falls
back to the default, which is what forces the non-empty qualification. -/
theorem C6_amended_case_normalization
    (fs : String → Bool) (kwargs : Kwargs) (s : String) :
    (mkPayPalConfig fs (setKw kwargs "API_ENVIRONMENT" (.vStr s)) =
      mkPayPalConfig fs (setKw kwargs "API_ENVIRONMENT" (.vStr (pyUpper s)))) ∧
    (mkPayPalConfig fs (setKw kwargs "API_AUTHENTICATION_MODE" (.vStr s)) =
      mkPayPalConfig fs
        (setKw kwargs "API_AUTHENTICATION_MODE" (.vStr (pyUpper s)))) ∧
    (s ≠ "" → pyUpper s ∉ valid_API_ENVIRONMENT →
      mkPayPalConfig fs (setKw kwargs "API_ENVIRONMENT" (.vStr s)) =
        .error (.configError "Invalid API_ENVIRONMENT")) ∧
    (s ≠ "" → pyUpper s ∉ valid_API_AUTHENTICATION_MODE →
      ∀ env, resolveEnv (setKw kwargs "API_AUTHENTICATION_MODE" (.vStr s)) =
          .ok env →
        mkPayPalConfig fs (setKw kwargs "API_AUTHENTICATION_MODE" (.vStr s)) =
          .error (.configError ("Not a supported auth mode. Use one of: "
            ++ String.intercalate ", " valid_API_AUTHENTICATION_MODE))) := by
  refine ⟨?_, ?_, ?_, ?_⟩
  · by_cases hs : s = ""
    · subst hs
      rfl
    · have hup : pyUpper s ≠ "" := fun h => hs ((pyUpper_empty_iff s).mp h)
      apply mk_setKw_congr fs kwargs "API_ENVIRONMENT" _ _ (Or.inl rfl)
      · rw [resolveEnv_setKw_str kwargs s hs, resolveEnv_setKw_str kwargs
          (pyUpper s) hup, pyUpper_idem]
      · apply resolveAuthMode_congr
        rw [setKw_ne kwargs _ _ (by decide), setKw_ne kwargs _ _ (by decide)]
  · by_cases hs : s = ""
    · subst hs
      rfl
    · have hup : pyUpper s ≠ "" := fun h => hs ((pyUpper_empty_iff s).mp h)
      apply mk_setKw_congr fs kwargs "API_AUTHENTICATION_MODE" _ _ (Or.inr rfl)
      · apply resolveEnv_congr
        rw [setKw_ne kwargs _ _ (by decide), setKw_ne kwargs _ _ (by decide)]
      · rw [resolveAuthMode_setKw_str kwargs s hs, resolveAuthMode_setKw_str
          kwargs (pyUpper s) hup, pyUpper_idem]
  · intro hs hnot
    have henvErr : resolveEnv (setKw kwargs "API_ENVIRONMENT" (.vStr s)) =
        .error (.configError "Invalid API_ENVIRONMENT") := by
      rw [resolveEnv_setKw_str kwargs s hs, if_neg hnot]
    unfold mkPayPalConfig
    simp only [henvErr]
  · intro hs hnot env henv2
    have hmodeErr : resolveAuthMode
        (setKw kwargs "API_AUTHENTICATION_MODE" (.vStr s)) =
        .error (.configError ("Not a supported auth mode. Use one of: "
          ++ String.intercalate ", " valid_API_AUTHENTICATION_MODE)) := by
      rw [resolveAuthMode_setKw_str kwargs s hs, if_neg hnot]
    unfold mkPayPalConfig
    simp only [henv2, hmodeErr]

/-- Witness for the amended C6: lowercase sandbox constructs identically to
SANDBOX, and the non-empty invalid value foo fails with the ConfigErrors. -/
theorem C6_amended_case_normalization_witness :
    (mkPayPalConfig (fun _ => false)
        (setKw emptyKwargs "API_ENVIRONMENT" (.vStr "sandbox")) =
      mkPayPalConfig (fun _ => false)
        (setKw emptyKwargs "API_ENVIRONMENT" (.vStr "SANDBOX"))) ∧
    (mkPayPalConfig (fun _ => false)
        (setKw emptyKwargs "API_ENVIRONMENT" (.vStr "foo")) =
      .error (.configError "Invalid API_ENVIRONMENT")) ∧
    (mkPayPalConfig (fun _ => false)
        (setKw emptyKwargs "API_AUTHENTICATION_MODE" (.vStr "foo")) =
      .error (.configError
        "Not a supported auth mode. Use one of: 3TOKEN, CERTIFICATE, ACCESS_TOKEN, 3TOKEN_SUBJECT")) :=
  ⟨(C6_amended_case_normalization (fun _ => false) emptyKwargs "sandbox").1,
   (C6_amended_case_normalization (fun _ => false) emptyKwargs "foo").2.2.1
     (by decide) (by decide),
   (C6_amended_case_normalization (fun _ => false) emptyKwargs "foo").2.2.2
     (by decide) (by decide) "SANDBOX" rfl⟩

/-- C7: a truthy string CA path that does not exist on the filesystem makes
construction fail with ConfigError 'Invalid API_CA_CERTS' (given that the
stages before it pass); when API_CA_CERTS is omitted or True, the CA policy
resolves to True identically for every filesystem, i.e. no existence check
is performed and the policy never fails construction. -/
theorem C7_ca_certs_policy
    (fs : String → Bool) (kwargs : Kwargs) (env mode p : String) :
    (kwargs "API_CA_CERTS" = some (.vStr p) → p ≠ "" → fs p = false →
      resolveEnv kwargs = .ok env → resolveAuthMode kwargs = .ok mode →
      (mode = "3TOKEN" ∨ mode = "ACCESS_TOKEN" ∨ mode = "3TOKEN_SUBJECT") →
      mkPayPalConfig fs kwargs = .error (.configError "Invalid API_CA_CERTS")) ∧
    ((kwargs "API_CA_CERTS" = none ∨ kwargs "API_CA_CERTS" = some (.vBool true)) →
      ∀ fs2 : String → Bool, resolveCACerts fs2 kwargs = .ok (.vBool true)) := by
  constructor
  · intro hkca hp hfs henv hmode himpl
    have ht : (Value.vStr p).truthy = true := by
      simp [Value.truthy, hp]
    have hg : getTruthy kwargs "API_CA_CERTS" = some (.vStr p) := by
      unfold getTruthy
      simp only [hkca, ht, if_true]
    have hca : resolveCACerts fs kwargs =
        .error (.configError "Invalid API_CA_CERTS") := by
      unfold resolveCACerts
      simp only [hg, hfs]
      rfl
    rcases resolveEnv_ok_mem henv with rfl | rfl <;>
      rcases himpl with rfl | rfl | rfl <;>
        simp only [mkPayPalConfig, henv, hmode, hca] <;> rfl
  · intro hkca fs2
    rcases hkca with h | h
    · unfold resolveCACerts getTruthy
      rw [h]
    · unfold resolveCACerts getTruthy
      rw [h]
      rfl

/-- Witness for C7: a missing path fails, and with the key absent the policy
is True on a filesystem where nothing exists. -/
theorem C7_ca_certs_policy_witness :
    mkPayPalConfig (fun _ => false) c7kwargs =
      .error (.configError "Invalid API_CA_CERTS") ∧
    resolveCACerts (fun _ => false) c2okKwargs = .ok (.vBool true) :=
  ⟨(C7_ca_certs_policy (fun _ => false) c7kwargs "SANDBOX" "3TOKEN"
      "/no/such/path").1 rfl (by decide) rfl rfl rfl (Or.inl rfl),
   (C7_ca_certs_policy (fun _ => false) c2okKwargs "SANDBOX" "3TOKEN" "").2
      (Or.inl rfl) (fun _ => false)⟩

/-- C8: on a successfully constructed config, a present HTTP_TIMEOUT directive
value replaces the default verbatim, whatever it is (including zero or a
negative number); an absent directive leaves exactly the default 15.0. -/
theorem C8_http_timeout
    (fs : String → Bool) (kwargs : Kwargs) (cfg : PayPalConfig)
    (h : mkPayPalConfig fs kwargs = .ok cfg) :
    (∀ v, kwargs "HTTP_TIMEOUT" = some v → cfg.HTTP_TIMEOUT = v) ∧
    (kwargs "HTTP_TIMEOUT" = none → cfg.HTTP_TIMEOUT = .vNum 15) := by
  obtain ⟨env, mode, ep, ub, ca, _, _, _, _, _, _, rfl⟩ := mk_ok_inv h
  rw [buildConfig_timeout]
  constructor
  · intro v hv
    rw [hv]
    rfl
  · intro hv
    rw [hv]
    rfl

/-- Witness for C8: a negative override is kept verbatim, and omission gives
exactly 15. -/
theorem C8_http_timeout_witness :
    c8Config.HTTP_TIMEOUT = .vNum (-1) ∧ c2okConfig.HTTP_TIMEOUT = .vNum 15 :=
  ⟨(C8_http_timeout (fun _ => false) c8kwargs c8Config rfl).1 (.vNum (-1)) rfl,
   (C8_http_timeout (fun _ => false) c2okKwargs c2okConfig rfl).2 rfl⟩

/-- C9: for an implemented mode with every required credential field supplied,
construction succeeds and each required field is retrievable from the
constructed object exactly equal to the supplied value (copied verbatim). -/
theorem C9_credentials_verbatim
    (fs : String → Bool) (kwargs : Kwargs) (env mode : String) (ca : Value)
    (henv : resolveEnv kwargs = .ok env)
    (hmode : resolveAuthMode kwargs = .ok mode)
    (himpl : mode = "3TOKEN" ∨ mode = "ACCESS_TOKEN" ∨ mode = "3TOKEN_SUBJECT")
    (hca : resolveCACerts fs kwargs = .ok ca)
    (hcred : ∀ g ∈ requiredFields mode, (kwargs g).isSome) :
    (mkPayPalConfig fs kwargs).toOption.isSome = true ∧
    ∀ f ∈ requiredFields mode,
      (mkPayPalConfig fs kwargs).map (fun c => c.getCred f) = .ok (kwargs f) := by
  have h6 := checkRequired_ok hcred
  have hok : mkPayPalConfig fs kwargs =
      .ok (buildConfig env mode
        (if env = "SANDBOX" then "https://api-3t.sandbox.paypal.com/nvp"
         else "https://api-3t.paypal.com/nvp")
        (if env = "SANDBOX" then "https://www.sandbox.paypal.com/webscr"
         else "https://www.paypal.com/webscr")
        ca kwargs) := by
    rcases resolveEnv_ok_mem henv with rfl | rfl <;>
      rcases himpl with rfl | rfl | rfl <;>
        exact mk_eq_ok henv hmode rfl rfl hca h6
  rw [hok]
  refine ⟨rfl, fun f hf => ?_⟩
  simp only [Except.map]
  rw [getCred_buildConfig_required hf]

/-- Witness for C9 in mode ACCESS_TOKEN with all five fields supplied. -/
theorem C9_credentials_verbatim_witness :
    (mkPayPalConfig (fun _ => false) c9kwargs).toOption.isSome = true ∧
    (mkPayPalConfig (fun _ => false) c9kwargs).map
      (fun c => c.getCred "ACCESS_TOKEN") = .ok (some (.vStr "a")) :=
  ⟨(C9_credentials_verbatim (fun _ => false) c9kwargs "SANDBOX" "ACCESS_TOKEN"
      (.vBool true) rfl rfl (Or.inr (Or.inl rfl)) rfl (by decide)).1,
   (C9_credentials_verbatim (fun _ => false) c9kwargs "SANDBOX" "ACCESS_TOKEN"
      (.vBool true) rfl rfl (Or.inr (Or.inl rfl)) rfl (by decide)).2
      "ACCESS_TOKEN" (by decide)⟩

/-- C10: a falsy directive value (empty string, False, 0, None) supplied for
API_ENVIRONMENT, API_AUTHENTICATION_MODE or API_CA_CERTS is treated exactly
like omitting the directive: the defaults SANDBOX, 3TOKEN and True resolve
with no error and no filesystem check. -/
theorem C10_falsy_directive_ignored
    (fs : String → Bool) (kwargs : Kwargs) (v : Value) (hv : v.truthy = false) :
    (kwargs "API_ENVIRONMENT" = some v → resolveEnv kwargs = .ok "SANDBOX") ∧
    (kwargs "API_AUTHENTICATION_MODE" = some v →
      resolveAuthMode kwargs = .ok "3TOKEN") ∧
    (kwargs "API_CA_CERTS" = some v →
      resolveCACerts fs kwargs = .ok (.vBool true)) := by
  refine ⟨fun h => ?_, fun h => ?_, fun h => ?_⟩
  · have hg : getTruthy kwargs "API_ENVIRONMENT" = none := by
      unfold getTruthy
      simp only [h, hv]
      rfl
    unfold resolveEnv
    simp only [hg]
  · have hg : getTruthy kwargs "API_AUTHENTICATION_MODE" = none := by
      unfold getTruthy
      simp only [h, hv]
      rfl
    unfold resolveAuthMode
    simp only [hg]
  · have hg : getTruthy kwargs "API_CA_CERTS" = none := by
      unfold getTruthy
      simp only [h, hv]
      rfl
    unfold resolveCACerts
    simp only [hg]

/-- Witness for C10: empty-string environment and CA path and a False auth
mode all fall back to the defaults without error. -/
theorem C10_falsy_directive_ignored_witness :
    resolveEnv c10kwargs = .ok "SANDBOX" ∧
    resolveAuthMode c10kwargs = .ok "3TOKEN" ∧
    resolveCACerts (fun _ => false) c10kwargs = .ok (.vBool true) :=
  ⟨(C10_falsy_directive_ignored (fun _ => false) c10kwargs (.vStr "") rfl).1 rfl,
   (C10_falsy_directive_ignored (fun _ => false) c10kwargs (.vBool false)
      rfl).2.1 rfl,
   (C10_falsy_directive_ignored (fun _ => false) c10kwargs (.vStr "")
      rfl).2.2 rfl⟩

end PayPalSettings
